import Mathlib

/-!
Shallow embedding of the SmartLit core (citation graphs, chunker, vector
store adapter, article monitor, RAG orchestration) together with proofs of
the specification claims about it.

Conventions of the embedding:
* Python dictionaries holding article records become the `Article`
  structure; a missing optional string field is the empty string and a
  missing `year` is `none` (Python truthiness of a string is `≠ ""`, of an
  integer is `≠ 0`).
* Floating point weights of the similarity score are embedded as exact
  rationals (3/10 for 0.3 and so on); the Python arithmetic on these small
  dyadic/decimal values is exact enough that the rational model is faithful
  for the claims below.
* External collaborators (the text splitter, the language model, the
  vector index) are parameters of the embedded functions.
-/

namespace SmartLit

/-- Article record as consumed by the graph builder / chunker: dictionary
fields with Python defaults (empty string, empty list, `none`). -/
structure Article where
  title : String := ""
  authors : List String := []
  year : Option Int := none
  journal : String := ""
  abstract : String := ""
  objective : String := ""
  methodology : String := ""
  key_variables : String := ""
  risk_type : String := ""
  level_of_analysis : String := ""
  main_findings : String := ""
  implications : String := ""
  limitations : String := ""
  deriving Repr, DecidableEq, Inhabited

/-- Python truthiness of a string value: non-empty. -/
def strTruthy (s : String) : Bool := s ≠ ""

/-- Python truthiness of an optional integer: present and non-zero. -/
def intTruthy (y : Option Int) : Bool :=
  match y with
  | none => false
  | some v => v ≠ 0

/-- Python `set(article.get('authors', []))`. -/
def authorsSet (a : Article) : Finset String := a.authors.toFinset

/-- Cardinality of the author-set intersection of two records. -/
def authorOverlap (a b : Article) : Nat := (authorsSet a ∩ authorsSet b).card

/-- Absolute year difference `abs(article1['year'] - article2['year'])` as a
rational (the guard ensures both years are present when it is used). -/
def yearDiffQ (a b : Article) : ℚ :=
  ((a.year.getD 0 - b.year.getD 0).natAbs : ℚ)

/-- Embedding of `_calculate_article_similarity`: sequential accumulation of
the four weighted attribute components followed by normalisation. -/
def calcArticleSimilarity (article1 article2 : Article) : ℚ :=
  let similarity : ℚ := 0
  let total_weight : ℚ := 0
  -- Risk type similarity
  let step1 : ℚ × ℚ :=
    if strTruthy article1.risk_type && strTruthy article2.risk_type then
      ((if article1.risk_type = article2.risk_type then similarity + 3/10 else similarity),
        total_weight + 3/10)
    else (similarity, total_weight)
  -- Level of analysis similarity
  let step2 : ℚ × ℚ :=
    if strTruthy article1.level_of_analysis && strTruthy article2.level_of_analysis then
      ((if article1.level_of_analysis = article2.level_of_analysis then step1.1 + 2/10 else step1.1),
        step1.2 + 2/10)
    else step1
  -- Year similarity (within 3 years)
  let step3 : ℚ × ℚ :=
    if intTruthy article1.year && intTruthy article2.year then
      ((if yearDiffQ article1 article2 ≤ 3 then
          step2.1 + 1/10 * (1 - yearDiffQ article1 article2 / 3)
        else step2.1),
        step2.2 + 1/10)
    else step2
  -- Author overlap
  let step4 : ℚ × ℚ :=
    if (authorsSet article1).card ≠ 0 && (authorsSet article2).card ≠ 0 then
      ((if 0 < authorOverlap article1 article2 then
          step3.1 + 4/10 * ((authorOverlap article1 article2 : ℚ) /
            (max (authorsSet article1).card (authorsSet article2).card : ℚ))
        else step3.1),
        step3.2 + 4/10)
    else step3
  if 0 < step4.2 then step4.1 / step4.2 else 0

/-- Spec-side restatement: the numerator of the similarity score (sum of the
matching components that fire). -/
def simNumerator (a b : Article) : ℚ :=
  (if (strTruthy a.risk_type && strTruthy b.risk_type) && decide (a.risk_type = b.risk_type)
    then (3 : ℚ)/10 else 0)
  + (if (strTruthy a.level_of_analysis && strTruthy b.level_of_analysis) &&
        decide (a.level_of_analysis = b.level_of_analysis)
    then (2 : ℚ)/10 else 0)
  + (if (intTruthy a.year && intTruthy b.year) && decide (yearDiffQ a b ≤ 3)
    then 1/10 * (1 - yearDiffQ a b / 3) else 0)
  + (if ((authorsSet a).card ≠ 0 && (authorsSet b).card ≠ 0) && decide (0 < authorOverlap a b)
    then 4/10 * ((authorOverlap a b : ℚ) / (max (authorsSet a).card (authorsSet b).card : ℚ))
    else 0)

/-- Spec-side restatement: the denominator of the similarity score (sum of
the weights of the components whose presence condition holds). -/
def simDenominator (a b : Article) : ℚ :=
  (if strTruthy a.risk_type && strTruthy b.risk_type then (3 : ℚ)/10 else 0)
  + (if strTruthy a.level_of_analysis && strTruthy b.level_of_analysis then (2 : ℚ)/10 else 0)
  + (if intTruthy a.year && intTruthy b.year then (1 : ℚ)/10 else 0)
  + (if (authorsSet a).card ≠ 0 && (authorsSet b).card ≠ 0 then (4 : ℚ)/10 else 0)

/-! ## Undirected weighted graphs as association lists of edges

`networkx.Graph` edge storage: an undirected edge between `u` and `v` is
looked up in either orientation, its `weight` attribute accumulates. -/

/-- Edge accumulator entry: unordered endpoint pair (stored in insertion
orientation, matched in both orientations) together with its weight. -/
abbrev EdgeMap := List ((String × String) × Nat)

/-- networkx edge-key match: an undirected edge `(u, v)` matches a stored
key in either orientation. -/
def edgeKeyMatch (k : String × String) (u v : String) : Bool :=
  (k.1 = u && k.2 = v) || (k.1 = v && k.2 = u)

/-- `G.has_edge(u, v)` on the edge accumulator. -/
def hasEdge (E : EdgeMap) (u v : String) : Bool :=
  E.any (fun e => edgeKeyMatch e.1 u v)

/-- One step of the co-occurrence accumulation: `G[u][v]['weight'] += 1` when
the edge exists, otherwise `G.add_edge(u, v, weight=1)`. -/
def incEdge (E : EdgeMap) (u v : String) : EdgeMap :=
  if hasEdge E u v then
    E.map (fun e => if edgeKeyMatch e.1 u v then (e.1, e.2 + 1) else e)
  else
    E ++ [((u, v), 1)]

/-- The nested loop `for i, a in enumerate(xs): for b in xs[i+1:]` adding one
co-occurrence edge per ordered position pair. -/
def addPairEdges (E : EdgeMap) : List String → EdgeMap
  | [] => E
  | a :: rest => addPairEdges (rest.foldl (fun acc b => incEdge acc a b) E) rest

/-! ## Author network (`create_author_network`) -/

/-- Whitespace tokenisation of Python `str.split()` (no argument): split on
whitespace runs, dropping empty tokens. `acc` holds the current token's
characters in reverse. -/
def splitWhitespaceAux : List Char → List Char → List String
  | [], acc => if acc = [] then [] else [String.mk acc.reverse]
  | c :: cs, acc =>
    if c.isWhitespace then
      if acc = [] then splitWhitespaceAux cs []
      else String.mk acc.reverse :: splitWhitespaceAux cs []
    else splitWhitespaceAux cs (c :: acc)

/-- Python `s.split()`: whitespace-delimited tokens of a string. -/
def splitWhitespace (s : String) : List String := splitWhitespaceAux s.toList []

/-- ASCII lower-casing of a string, character by character (Python
`str.lower()` restricted to ASCII). -/
def strToLower (s : String) : String := String.mk (s.toList.map Char.toLower)

/-- Honorific tokens removed from the front of an author name by
`re.sub(r'^(Dr\.?|Prof\.?|Mr\.?|Ms\.?|Mrs\.?)\s+', ...)` (case-insensitive,
and the regex requires trailing whitespace, hence a following token). -/
def honorifics : List String :=
  ["dr", "dr.", "prof", "prof.", "mr", "mr.", "ms", "ms.", "mrs", "mrs."]

/-- Suffix tokens removed from the end of an author name by
`re.sub(r'\s+(Jr\.?|Sr\.?|PhD\.?|MD\.?)$', ...)` (case-insensitive, and the
regex requires preceding whitespace, hence a preceding token). -/
def trailingTitles : List String :=
  ["jr", "jr.", "sr", "sr.", "phd", "phd.", "md", "md."]

/-- Python `str.title()` (ASCII letters): the first letter of each alphabetic
run is upper-cased, the following letters lower-cased. -/
def titleCase (s : String) : String :=
  String.mk ((s.toList.foldl
    (fun (acc : List Char × Bool) c =>
      if c.isAlpha then
        (acc.1 ++ [if acc.2 then c.toLower else c.toUpper], true)
      else
        (acc.1 ++ [c], false))
    ([], false)).1)

/-- Embedding of `_clean_author_name`: collapse whitespace, strip a leading
honorific and a trailing title token, then title-case. -/
def cleanAuthorName (author_name : String) : String :=
  let tokens := splitWhitespace author_name
  let tokens :=
    match tokens with
    | [] => []
    | t :: rest =>
      if honorifics.contains (strToLower t) ∧ rest ≠ [] then rest else t :: rest
  let tokens :=
    match tokens.getLast? with
    | none => tokens
    | some t =>
      if trailingTitles.contains (strToLower t) ∧ 2 ≤ tokens.length then tokens.dropLast
      else tokens
  titleCase (String.intercalate " " tokens)

/-- Cleaned author list of one record: `[clean(a) for a in authors if a]`. -/
def cleanAuthorsOf (a : Article) : List String :=
  (a.authors.filter (fun s => s ≠ "")).map cleanAuthorName

/-- Embedding of the edge accumulation of `create_author_network`: records
with at least two cleaned author names contribute a complete pairwise edge
set with unit increments. -/
def createAuthorNetworkEdges (articles : List Article) : EdgeMap :=
  articles.foldl
    (fun E article =>
      let clean_authors := cleanAuthorsOf article
      if 1 < clean_authors.length then addPairEdges E clean_authors else E)
    []

/-! ## Keyword network (`create_keyword_network`) -/

/-- Stop-word list of `_extract_keywords`. -/
def stopWords : List String :=
  ["the", "a", "an", "and", "or", "but", "in", "on", "at", "to", "for", "of", "with",
   "by", "this", "that", "these", "those", "is", "are", "was", "were", "be", "been",
   "have", "has", "had", "do", "does", "did", "will", "would", "could", "should",
   "may", "might", "must", "can", "cannot", "from", "into", "through", "during",
   "before", "after", "above", "below", "up", "down", "out", "off", "over", "under",
   "again", "further", "then", "once", "here", "there", "when", "where", "why", "how",
   "all", "any", "both", "each", "few", "more", "most", "other", "some", "such",
   "no", "nor", "not", "only", "own", "same", "so", "than", "too", "very"]

/-- Python `word.isdigit()` for ASCII strings: non-empty and all digits. -/
def isDigitStr (s : String) : Bool := s ≠ "" && s.toList.all Char.isDigit

/-- Python `word.isalpha()` for ASCII strings: non-empty and all letters. -/
def isAlphaStr (s : String) : Bool := s ≠ "" && s.toList.all Char.isAlpha

/-- Embedding of `_extract_keywords` (ASCII case mapping): lower-case,
replace every character that is neither a word character nor whitespace by a
space, split on whitespace, keep alphabetic non-stop-words of length ≥ 3.
The Python `set` of keywords is embedded as the deduplicated list. -/
def extractKeywords (text : String) : List String :=
  if text = "" then []
  else
    let lowered := strToLower text
    let cleaned := String.mk (lowered.toList.map
      (fun c => if c.isAlphanum || c == '_' || c.isWhitespace then c else ' '))
    let words := splitWhitespace cleaned
    (words.filter (fun w =>
      decide (3 ≤ w.length) && !(stopWords.contains w) && !(isDigitStr w) && isAlphaStr w)).dedup

/-- Python `set.add`: append if absent (keeps the list duplicate-free). -/
def setAdd (l : List String) (s : String) : List String :=
  if s ∈ l then l else l ++ [s]

/-- Keyword set of one record: extracted keywords of the concatenated text
fields plus the lowered `risk_type` and the hyphen-normalised lowered
`level_of_analysis` when present. -/
def articleKeywords (a : Article) : List String :=
  let combined := String.intercalate " "
    [a.title, a.abstract, a.objective, a.key_variables, a.main_findings]
  let kws := extractKeywords combined
  let kws := if a.risk_type ≠ "" then setAdd kws (strToLower a.risk_type) else kws
  let kws :=
    if a.level_of_analysis ≠ "" then
      setAdd kws (String.mk ((strToLower a.level_of_analysis).toList.map
        (fun c => if c = '-' then ' ' else c)))
    else kws
  kws

/-- Keyword frequency: the number of records whose keyword set contains the
keyword (`Counter(all_keywords)` where each record contributes its set). -/
def keywordFrequency (articles : List Article) (kw : String) : Nat :=
  (articles.filter (fun a => kw ∈ articleKeywords a)).length

/-- Node set of the keyword network after pruning: all keywords of all
records, minus those whose frequency is below 2. -/
def keywordNetworkNodes (articles : List Article) : List String :=
  ((articles.map articleKeywords).flatten.dedup).filter
    (fun kw => decide (2 ≤ keywordFrequency articles kw))

/-- Edge accumulator of the keyword network before pruning: complete
pairwise co-occurrence edges within each record's keyword set. -/
def keywordNetworkEdgesPrePrune (articles : List Article) : EdgeMap :=
  articles.foldl (fun E a => addPairEdges E (articleKeywords a)) []

/-- Edge set of the keyword network after pruning (removing a node removes
its incident edges). -/
def keywordNetworkEdges (articles : List Article) : EdgeMap :=
  (keywordNetworkEdgesPrePrune articles).filter
    (fun e => decide (2 ≤ keywordFrequency articles e.1.1) &&
              decide (2 ≤ keywordFrequency articles e.1.2))

/-! ## Article similarity network (`create_article_similarity_network`) -/

/-- Fuel-based decimal digit rendering, mirroring the structure of the
runtime decimal conversion used by the Python f-string `f"article_{i}"`. -/
def decimalDigitsCore : Nat → Nat → List Char → List Char
  | 0, _, ds => ds
  | fuel + 1, n, ds =>
    let d := Char.ofNat (48 + n % 10)
    let n' := n / 10
    if n' = 0 then d :: ds else decimalDigitsCore fuel n' (d :: ds)

/-- Decimal string of a natural number. -/
def natToDecimalString (n : Nat) : String := String.mk (decimalDigitsCore (n + 1) n [])

/-- Recursive (fuel-free) description of the decimal digit list, used to
reason about `decimalDigitsCore`. -/
def decimalDigitsWF (n : Nat) : List Char :=
  if n < 10 then [Char.ofNat (48 + n)]
  else decimalDigitsWF (n / 10) ++ [Char.ofNat (48 + n % 10)]
decreasing_by exact Nat.div_lt_self (by omega) (by omega)

/-- Value of a decimal digit list (left inverse of the digit rendering). -/
def digitsVal (ds : List Char) : Nat :=
  ds.foldl (fun acc c => acc * 10 + (c.toNat - 48)) 0

/-- No stored edge key joins a node to itself. -/
def noSelfLoop (E : EdgeMap) : Prop := ∀ p ∈ E, p.1.1 ≠ p.1.2

/-- Synthetic node identity `f"article_{i}"`. -/
def articleNodeId (i : Nat) : String := "article_" ++ natToDecimalString i

/-- Edge of the similarity network: endpoint node ids and the similarity
score stored both as `weight` and `similarity`. -/
structure SimEdge where
  src : String
  dst : String
  weight : ℚ
  deriving Repr, DecidableEq

/-- Embedding of the edge construction of `create_article_similarity_network`:
one node per record in input order, and an edge for every index pair
`i < j` whose similarity score meets the threshold. -/
def createArticleSimilarityNetworkEdges (articles : List Article)
    (similarity_threshold : ℚ) : List SimEdge :=
  let n := articles.length
  (List.range n).flatMap (fun i =>
    ((List.range n).filter (fun j => i < j)).filterMap (fun j =>
      let similarity_score :=
        calcArticleSimilarity (articles.getD i default) (articles.getD j default)
      if similarity_threshold ≤ similarity_score then
        some ⟨articleNodeId i, articleNodeId j, similarity_score⟩
      else none))

/-! ## Chunker (`VectorStoreService.chunk_article_content`)

The external `RecursiveCharacterTextSplitter` is a collaborator outside the
core; it is a parameter `split` of the embedded chunker, as is the
generated `uuid4` document id `docId` (generated once per call). -/

/-- Analysis fields appended to the composed text, in the fixed source
order, with their rendered labels (`field.replace('_', ' ').title()`). -/
def analysisFields (a : Article) : List (String × String) :=
  [("Objective", a.objective), ("Methodology", a.methodology),
   ("Key Variables", a.key_variables), ("Main Findings", a.main_findings),
   ("Implications", a.implications), ("Limitations", a.limitations)]

/-- Composed article text: title/abstract header plus each present analysis
field. -/
def composeArticleText (a : Article) : String :=
  let primary_content := "Title: " ++ a.title ++ "\n\nAbstract: " ++ a.abstract
  (analysisFields a).foldl
    (fun acc lv => if lv.2 ≠ "" then acc ++ "\n\n" ++ lv.1 ++ ": " ++ lv.2 else acc)
    primary_content

/-- Metadata envelope stamped on every chunk of one record. -/
structure ChunkMeta where
  title : String
  authors : String
  year : Option Int
  journal : String
  risk_type : String
  level_of_analysis : String
  source : String
  document_id : String
  chunk_id : Nat
  total_chunks : Nat
  deriving Repr, DecidableEq

/-- One produced chunk document. -/
structure Chunk where
  page_content : String
  metadata : ChunkMeta
  deriving Repr, DecidableEq

/-- Embedding of `chunk_article_content`: compose the text, split it with
the collaborator `split`, and stamp each piece with the shared metadata
plus its position and the chunk count. -/
def chunkArticleContent (split : String → List String) (docId : String)
    (article : Article) : List Chunk :=
  let primary_content := composeArticleText article
  let chunks := split primary_content
  chunks.enum.map (fun ic =>
    { page_content := ic.2,
      metadata :=
        { title := article.title,
          authors := String.intercalate ", " article.authors,
          year := article.year,
          journal := article.journal,
          risk_type := article.risk_type,
          level_of_analysis := article.level_of_analysis,
          source := "crossref",
          document_id := docId,
          chunk_id := ic.1,
          total_chunks := chunks.length } })

/-! ## Collection statistics (`get_collection_stats`) -/

/-- Payload returned by `get_collection_stats`; the error payload carries no
collection name. -/
structure CollectionStats where
  total_documents : Nat
  collection_name : Option String
  error : Option String
  deriving Repr, DecidableEq

/-- Embedding of `get_collection_stats`: the adapter call
`collection.count()` either returns a count or raises, which the
`try/except` converts into a soft-failure payload. -/
def getCollectionStats (collectionName : String)
    (countResult : Except String Nat) : CollectionStats :=
  match countResult with
  | .ok n => { total_documents := n, collection_name := some collectionName, error := none }
  | .error e => { total_documents := 0, collection_name := none, error := some e }

/-! ## Similarity search keyword arguments (`search_similar`) -/

/-- Keyword arguments assembled for `similarity_search`: the result count
and the optional metadata filter clause. -/
structure SearchKwargs where
  k : Nat
  filter : Option (List (String × String))
  deriving Repr, DecidableEq

/-- The `where_clause` loop: keep exactly the filter entries whose value is
not `None`. -/
def buildWhereClause (filters : List (String × Option String)) : List (String × String) :=
  filters.foldl
    (fun acc kv => match kv.2 with | some v => acc ++ [(kv.1, v)] | none => acc)
    []

/-- Embedding of the argument assembly of `search_similar`: the filter
clause is attached only when filters were supplied and the non-`None`
entries are non-empty. -/
def searchSimilarKwargs (k : Nat) (filters : List (String × Option String)) : SearchKwargs :=
  if filters.isEmpty then { k := k, filter := none }
  else
    let where_clause := buildWhereClause filters
    if where_clause.isEmpty then { k := k, filter := none }
    else { k := k, filter := some where_clause }

/-! ## Recency predicate (`ArticleMonitor.is_article_recent`) -/

/-- Embedding of `is_article_recent`; `currentYear` stands for
`datetime.now().year` and `maxDays` for
`config["max_days_since_publication"]`. A falsy `year` (absent or zero)
fails closed; otherwise the record is recent when its year is at least
`current_year - max_days // 365`. -/
def isArticleRecent (currentYear : Int) (maxDays : Nat) (year : Option Int) : Bool :=
  match year with
  | none => false
  | some y =>
    if y = 0 then false
    else
      let min_year : Int := currentYear - (maxDays / 365 : Nat)
      decide (min_year ≤ y)

/-! ## Multi-article summary (`RAGService.multi_article_summary`) -/

/-- Metadata of a retrieved document as used by the summary operation. -/
structure DocMeta where
  title : String
  authors : String
  year : Option Int
  journal : String
  deriving Repr, DecidableEq

/-- A retrieved document (chunk) returned by the vector store. -/
structure RetrievedDoc where
  page_content : String
  metadata : DocMeta
  deriving Repr, DecidableEq

/-- Result payload of `multi_article_summary`. `llmInvoked` records whether
the language-model collaborator was called to synthesise the summary. -/
structure MultiSummaryResult where
  summary : String
  articles_analyzed : List DocMeta
  articles_found : Nat
  total_chunks_analyzed : Option Nat
  llmInvoked : Bool
  deriving Repr, DecidableEq

/-- The `unique_articles` dictionary keyed by title: keep the first
retrieved document of each title, in first-seen order. -/
def dedupByTitleAux (acc : List RetrievedDoc) : List RetrievedDoc → List RetrievedDoc
  | [] => acc
  | d :: rest =>
    if acc.any (fun x => x.metadata.title == d.metadata.title) then
      dedupByTitleAux acc rest
    else
      dedupByTitleAux (acc ++ [d]) rest

/-- Deduplicate retrieved documents by title, keeping first occurrences. -/
def dedupByTitle (docs : List RetrievedDoc) : List RetrievedDoc :=
  dedupByTitleAux [] docs

/-- Embedding of `multi_article_summary`: `retrieve t` stands for the
title-filtered `search_similar(query=t, k=10, title=t)` call and `llm` for
the synthesis chain. When no chunks are retrieved for any title the
zero-result payload is returned without invoking `llm`. -/
def multiArticleSummary (retrieve : String → List RetrievedDoc) (llm : String → String)
    (article_titles : List String) : MultiSummaryResult :=
  let relevant_docs := article_titles.flatMap (fun title => retrieve title)
  if relevant_docs.isEmpty then
    { summary := "No articles found with the specified titles.",
      articles_analyzed := [], articles_found := 0,
      total_chunks_analyzed := none, llmInvoked := false }
  else
    let context := String.intercalate "\n\n"
      (relevant_docs.map (fun d => "Article: " ++ d.metadata.title ++ "\n" ++ d.page_content))
    let synthesis := llm context
    let unique_articles := dedupByTitle relevant_docs
    { summary := synthesis,
      articles_analyzed := unique_articles.map (fun d => d.metadata),
      articles_found := unique_articles.length,
      total_chunks_analyzed := some relevant_docs.length,
      llmInvoked := true }

/-! ## Concrete instances used to exercise the embedded operations -/

/-- First record of the spec's end-to-end similarity example. -/
def exampleArticleA : Article :=
  { title := "A", authors := ["X", "Y"], risk_type := "Financial", year := some 2020 }

/-- Second record of the spec's end-to-end similarity example. -/
def exampleArticleB : Article :=
  { title := "B", authors := ["Y", "Z"], risk_type := "Financial", year := some 2021 }

/-- A record whose two author strings normalise to the same cleaned name. -/
def selfLoopArticle : Article := { authors := ["Dr. X", "X"] }

/-- A record with two distinct authors. -/
def twoAuthorArticle : Article := { title := "T", authors := ["X", "Y"] }

/-- Degenerate but contract-satisfying splitter collaborator: one chunk per
non-empty text. -/
def splitWhole : String → List String := fun s => if s = "" then [] else [s]

/-- A concrete retrieved chunk of the article titled `T`. -/
def exampleDoc1 : RetrievedDoc :=
  { page_content := "chunk one", metadata := { title := "T", authors := "X", year := some 2020, journal := "J" } }

/-- A second retrieved chunk of the same article `T`. -/
def exampleDoc2 : RetrievedDoc :=
  { page_content := "chunk two", metadata := { title := "T", authors := "X", year := some 2020, journal := "J" } }

/-- A retrieval collaborator returning two chunks of the same title. -/
def retrieveSameTitle : String → List RetrievedDoc := fun _ => [exampleDoc1, exampleDoc2]

/-- A record with every field at its default: empty abstract, no analysis
fields, no full text anywhere. -/
def emptyArticle : Article := {}

/-- A record with a non-empty abstract. -/
def abstractArticle : Article :=
  { title := "T", abstract := "About financial risk management." }

/-- First keyword-example record: keywords `alpha`, `beta`. -/
def kwArticle1 : Article := { title := "alpha beta" }

/-- Second keyword-example record: keywords `beta`, `gamma`. -/
def kwArticle2 : Article := { title := "beta gamma" }

/-! ## Helper lemmas about the similarity score -/

theorem simStep_eq (c : Bool) (p : Prop) [Decidable p] (s w x y : ℚ) :
    (if c then ((if p then s + x else s), w + y) else (s, w))
      = (s + (if c && decide p then x else 0), w + (if c then y else 0)) := by
  cases c <;> by_cases hp : p <;> simp [hp]

theorem calc_eq_spec (a b : Article) :
    calcArticleSimilarity a b =
      if 0 < simDenominator a b then simNumerator a b / simDenominator a b else 0 := by
  simp only [calcArticleSimilarity, simStep_eq]
  simp [simNumerator, simDenominator]

theorem yearDiffQ_comm (a b : Article) : yearDiffQ a b = yearDiffQ b a := by
  unfold yearDiffQ
  rw [← Int.natAbs_neg, neg_sub]

theorem authorOverlap_comm (a b : Article) : authorOverlap a b = authorOverlap b a := by
  unfold authorOverlap
  rw [Finset.inter_comm]

theorem decide_eq_symm {α : Type} [DecidableEq α] (x y : α) :
    decide (x = y) = decide (y = x) :=
  decide_eq_decide.mpr ⟨Eq.symm, Eq.symm⟩

theorem simNumerator_comm (a b : Article) : simNumerator a b = simNumerator b a := by
  unfold simNumerator
  rw [yearDiffQ_comm, authorOverlap_comm,
    Bool.and_comm (strTruthy a.risk_type) (strTruthy b.risk_type),
    decide_eq_symm a.risk_type b.risk_type,
    Bool.and_comm (strTruthy a.level_of_analysis) (strTruthy b.level_of_analysis),
    decide_eq_symm a.level_of_analysis b.level_of_analysis,
    Bool.and_comm (intTruthy a.year) (intTruthy b.year),
    Bool.and_comm (decide ((authorsSet a).card ≠ 0)) (decide ((authorsSet b).card ≠ 0)),
    max_comm ((authorsSet a).card : ℚ) ((authorsSet b).card : ℚ)]

theorem simDenominator_comm (a b : Article) : simDenominator a b = simDenominator b a := by
  unfold simDenominator
  rw [Bool.and_comm (strTruthy a.risk_type) (strTruthy b.risk_type),
    Bool.and_comm (strTruthy a.level_of_analysis) (strTruthy b.level_of_analysis),
    Bool.and_comm (intTruthy a.year) (intTruthy b.year),
    Bool.and_comm (decide ((authorsSet a).card ≠ 0)) (decide ((authorsSet b).card ≠ 0))]

theorem yearDiffQ_nonneg (a b : Article) : 0 ≤ yearDiffQ a b := by
  unfold yearDiffQ
  positivity

theorem if_nonneg_helper (c : Prop) [Decidable c] {x : ℚ} (h : c → 0 ≤ x) :
    0 ≤ if c then x else 0 := by
  split_ifs with h'
  · exact h h'
  · exact le_refl 0

theorem if_le_if_helper (c' c : Prop) [Decidable c'] [Decidable c] {x y : ℚ}
    (himp : c' → c) (hxy : c' → x ≤ y) (hy : 0 ≤ y) :
    (if c' then x else 0) ≤ (if c then y else 0) := by
  split_ifs with h1 h2 h3
  · exact hxy h1
  · exact absurd (himp h1) h2
  · exact hy
  · exact le_refl 0

theorem maxCardQ_pos (a b : Article) (ha : (authorsSet a).card ≠ 0) :
    0 < max ((authorsSet a).card : ℚ) ((authorsSet b).card : ℚ) := by
  have : (0:ℚ) < ((authorsSet a).card : ℚ) := by
    exact_mod_cast Nat.pos_of_ne_zero ha
  exact lt_of_lt_of_le this (le_max_left _ _)

theorem overlap_le_maxCardQ (a b : Article) :
    (authorOverlap a b : ℚ) ≤ max ((authorsSet a).card : ℚ) ((authorsSet b).card : ℚ) := by
  have h : authorOverlap a b ≤ (authorsSet a).card :=
    Finset.card_le_card Finset.inter_subset_left
  calc (authorOverlap a b : ℚ) ≤ ((authorsSet a).card : ℚ) := by exact_mod_cast h
    _ ≤ _ := le_max_left _ _

theorem simNumerator_nonneg (a b : Article) : 0 ≤ simNumerator a b := by
  unfold simNumerator
  apply add_nonneg
  apply add_nonneg
  apply add_nonneg
  · exact if_nonneg_helper _ (fun _ => by norm_num)
  · exact if_nonneg_helper _ (fun _ => by norm_num)
  · apply if_nonneg_helper _ (fun h => ?_)
    simp only [Bool.and_eq_true, decide_eq_true_eq] at h
    have hd := h.2
    have := yearDiffQ_nonneg a b
    linarith
  · apply if_nonneg_helper _ (fun h => ?_)
    simp only [Bool.and_eq_true, decide_eq_true_eq] at h
    have hpos := maxCardQ_pos a b h.1.1
    positivity

theorem simDenominator_nonneg (a b : Article) : 0 ≤ simDenominator a b := by
  unfold simDenominator
  apply add_nonneg
  apply add_nonneg
  apply add_nonneg
  all_goals exact if_nonneg_helper _ (fun _ => by norm_num)

theorem simNumerator_le_simDenominator (a b : Article) :
    simNumerator a b ≤ simDenominator a b := by
  unfold simNumerator simDenominator
  apply add_le_add
  apply add_le_add
  apply add_le_add
  · apply if_le_if_helper _ _ ?_ (fun _ => le_refl _) (by norm_num)
    intro h
    simp only [Bool.and_eq_true] at h ⊢
    exact h.1
  · apply if_le_if_helper _ _ ?_ (fun _ => le_refl _) (by norm_num)
    intro h
    simp only [Bool.and_eq_true] at h ⊢
    exact h.1
  · apply if_le_if_helper _ _ ?_ ?_ (by norm_num)
    · intro h
      simp only [Bool.and_eq_true] at h ⊢
      exact h.1
    · intro _
      have := yearDiffQ_nonneg a b
      nlinarith
  · apply if_le_if_helper _ _ ?_ ?_ (by norm_num)
    · intro h
      simp only [Bool.and_eq_true] at h ⊢
      exact h.1
    · intro h
      simp only [Bool.and_eq_true, decide_eq_true_eq] at h
      have hpos := maxCardQ_pos a b h.1.1
      have hle := overlap_le_maxCardQ a b
      have hdiv : (authorOverlap a b : ℚ) /
          (max ((authorsSet a).card : ℚ) ((authorsSet b).card : ℚ)) ≤ 1 :=
        (div_le_one hpos).mpr hle
      nlinarith

theorem calcArticleSimilarity_nonneg (a b : Article) : 0 ≤ calcArticleSimilarity a b := by
  rw [calc_eq_spec]
  split_ifs with h
  · exact div_nonneg (simNumerator_nonneg a b) (le_of_lt h)
  · exact le_refl 0

theorem calcArticleSimilarity_le_one (a b : Article) : calcArticleSimilarity a b ≤ 1 := by
  rw [calc_eq_spec]
  split_ifs with h
  · exact (div_le_one h).mpr (simNumerator_le_simDenominator a b)
  · norm_num

theorem exampleScore :
    calcArticleSimilarity exampleArticleA exampleArticleB = 17/24 := by
  simp +decide [calcArticleSimilarity, strTruthy, intTruthy, authorsSet, authorOverlap,
    yearDiffQ, exampleArticleA, exampleArticleB]
  norm_num

/-! ## Helper lemmas about the decimal node ids -/

theorem decimalDigitsCore_eq_WF :
    ∀ (fuel n : Nat) (ds : List Char), n < fuel →
      decimalDigitsCore fuel n ds = decimalDigitsWF n ++ ds := by
  intro fuel
  induction fuel with
  | zero => intro n ds h; omega
  | succ f ih =>
    intro n ds h
    rw [decimalDigitsCore]
    by_cases h0 : n / 10 = 0
    · have hn : n < 10 := by omega
      rw [if_pos h0]
      conv_rhs => rw [decimalDigitsWF]
      rw [if_pos hn, Nat.mod_eq_of_lt hn]
      simp
    · have hge : 10 ≤ n := by
        by_contra hc
        exact h0 (Nat.div_eq_of_lt (by omega))
      have hlt : n / 10 < f :=
        lt_of_lt_of_le (Nat.div_lt_self (by omega) (by omega)) (by omega)
      rw [if_neg h0, ih (n / 10) _ hlt]
      conv_rhs => rw [decimalDigitsWF]
      rw [if_neg (by omega)]
      simp

theorem digit_toNat : ∀ k, k < 10 → (Char.ofNat (48 + k)).toNat = 48 + k := by decide

theorem digitsVal_append (l : List Char) (c : Char) :
    digitsVal (l ++ [c]) = digitsVal l * 10 + (c.toNat - 48) := by
  unfold digitsVal
  rw [List.foldl_append]
  rfl

theorem digitsVal_WF (n : Nat) : digitsVal (decimalDigitsWF n) = n := by
  induction n using Nat.strong_induction_on with
  | _ n ih =>
    rw [decimalDigitsWF]
    by_cases h : n < 10
    · rw [if_pos h]
      show 0 * 10 + ((Char.ofNat (48 + n)).toNat - 48) = n
      rw [digit_toNat n h]
      omega
    · rw [if_neg h, digitsVal_append]
      have hlt : n / 10 < n := Nat.div_lt_self (by omega) (by omega)
      rw [ih (n / 10) hlt, digit_toNat (n % 10) (Nat.mod_lt n (by omega))]
      omega

theorem natToDecimalString_inj {m n : Nat}
    (h : natToDecimalString m = natToDecimalString n) : m = n := by
  have hd : decimalDigitsCore (m + 1) m [] = decimalDigitsCore (n + 1) n [] :=
    congrArg String.data h
  rw [decimalDigitsCore_eq_WF (m + 1) m [] (by omega),
    decimalDigitsCore_eq_WF (n + 1) n [] (by omega)] at hd
  simp only [List.append_nil] at hd
  have hv := congrArg digitsVal hd
  rwa [digitsVal_WF, digitsVal_WF] at hv

theorem articleNodeId_inj {i j : Nat} (h : articleNodeId i = articleNodeId j) : i = j := by
  unfold articleNodeId at h
  have hd : ("article_" ++ natToDecimalString i).data
      = ("article_" ++ natToDecimalString j).data := congrArg String.data h
  simp only [String.data_append] at hd
  have hcancel := List.append_cancel_left hd
  have hstr : natToDecimalString i = natToDecimalString j := by
    have h1 : natToDecimalString i = String.mk ((natToDecimalString i).data) := rfl
    have h2 : natToDecimalString j = String.mk ((natToDecimalString j).data) := rfl
    rw [h1, h2, hcancel]
  exact natToDecimalString_inj hstr

/-! ## Helper lemmas about the graph builders -/

theorem incEdge_noSelf {E : EdgeMap} {u v : String} (hE : noSelfLoop E) (huv : u ≠ v) :
    noSelfLoop (incEdge E u v) := by
  unfold incEdge
  split_ifs with h
  · intro p hp
    obtain ⟨q, hq, hpq⟩ := List.mem_map.mp hp
    by_cases hm : edgeKeyMatch q.1 u v = true
    · rw [if_pos hm] at hpq
      subst hpq
      exact hE q hq
    · rw [if_neg hm] at hpq
      subst hpq
      exact hE q hq
  · intro p hp
    rcases List.mem_append.mp hp with h1 | h2
    · exact hE p h1
    · simp only [List.mem_singleton] at h2
      subst h2
      exact huv

theorem foldl_incEdge_noSelf {a : String} :
    ∀ (rest : List String) (E : EdgeMap), noSelfLoop E → (∀ b ∈ rest, a ≠ b) →
      noSelfLoop (rest.foldl (fun acc b => incEdge acc a b) E) := by
  intro rest
  induction rest with
  | nil => intro E hE _; exact hE
  | cons b tl ih =>
    intro E hE hab
    simp only [List.foldl_cons]
    exact ih _ (incEdge_noSelf hE (hab b (by simp))) (fun x hx => hab x (by simp [hx]))

theorem addPairEdges_noSelf :
    ∀ (l : List String) (E : EdgeMap), l.Nodup → noSelfLoop E →
      noSelfLoop (addPairEdges E l) := by
  intro l
  induction l with
  | nil => intro E _ hE; exact hE
  | cons a rest ih =>
    intro E hnd hE
    rw [addPairEdges]
    have hnd' := List.nodup_cons.mp hnd
    exact ih _ hnd'.2 (foldl_incEdge_noSelf rest E hE (fun b hb => by
      intro hab
      exact hnd'.1 (hab ▸ hb)))

theorem createAuthorNetworkEdges_noSelf (articles : List Article)
    (h : ∀ a ∈ articles, (cleanAuthorsOf a).Nodup) :
    noSelfLoop (createAuthorNetworkEdges articles) := by
  unfold createAuthorNetworkEdges
  have hgen : ∀ (arts : List Article) (E : EdgeMap), (∀ a ∈ arts, (cleanAuthorsOf a).Nodup) →
      noSelfLoop E → noSelfLoop (arts.foldl
        (fun E article =>
          let clean_authors := cleanAuthorsOf article
          if 1 < clean_authors.length then addPairEdges E clean_authors else E) E) := by
    intro arts
    induction arts with
    | nil => intro E _ hE; exact hE
    | cons a tl ih =>
      intro E ha hE
      simp only [List.foldl_cons]
      apply ih _ (fun x hx => ha x (by simp [hx]))
      dsimp only
      split_ifs with hlen
      · exact addPairEdges_noSelf _ _ (ha a (by simp)) hE
      · exact hE
  exact hgen articles [] h (fun p hp => absurd hp (List.not_mem_nil p))

theorem articleKeywords_nodup (a : Article) : (articleKeywords a).Nodup := by
  unfold articleKeywords setAdd
  have hbase : (extractKeywords (String.intercalate " "
      [a.title, a.abstract, a.objective, a.key_variables, a.main_findings])).Nodup := by
    unfold extractKeywords
    split_ifs
    · exact List.nodup_nil
    · exact List.nodup_dedup _
  have hadd : ∀ (l : List String) (s : String), l.Nodup →
      (if s ∈ l then l else l ++ [s]).Nodup := by
    intro l s hl
    split_ifs with hmem
    · exact hl
    · simp [List.nodup_append, hl, hmem]
  split_ifs <;> first
    | exact hbase
    | exact hadd _ _ hbase
    | exact hadd _ _ (hadd _ _ hbase)

theorem keywordNetworkEdgesPrePrune_noSelf (articles : List Article) :
    noSelfLoop (keywordNetworkEdgesPrePrune articles) := by
  unfold keywordNetworkEdgesPrePrune
  have hgen : ∀ (arts : List Article) (E : EdgeMap), noSelfLoop E →
      noSelfLoop (arts.foldl (fun E a => addPairEdges E (articleKeywords a)) E) := by
    intro arts
    induction arts with
    | nil => intro E hE; exact hE
    | cons a tl ih =>
      intro E hE
      simp only [List.foldl_cons]
      exact ih _ (addPairEdges_noSelf _ _ (articleKeywords_nodup a) hE)
  exact hgen articles [] (fun p hp => absurd hp (List.not_mem_nil p))

theorem keywordNetworkEdges_noSelf (articles : List Article) :
    noSelfLoop (keywordNetworkEdges articles) := by
  unfold keywordNetworkEdges
  intro p hp
  exact keywordNetworkEdgesPrePrune_noSelf articles p (List.mem_of_mem_filter hp)

theorem simEdges_mem_shape {articles : List Article} {t : ℚ} {e : SimEdge}
    (he : e ∈ createArticleSimilarityNetworkEdges articles t) :
    ∃ i j, i < j ∧ j < articles.length ∧
      e = ⟨articleNodeId i, articleNodeId j,
        calcArticleSimilarity (articles.getD i default) (articles.getD j default)⟩ ∧
      t ≤ calcArticleSimilarity (articles.getD i default) (articles.getD j default) := by
  unfold createArticleSimilarityNetworkEdges at he
  simp only [List.mem_flatMap, List.mem_filterMap, List.mem_filter, List.mem_range] at he
  obtain ⟨i, hi, j, ⟨⟨hj, hij⟩, hf⟩⟩ := he
  split_ifs at hf with ht
  simp only [Option.some.injEq] at hf
  exact ⟨i, j, by simpa using hij, hj, hf.symm, ht⟩

theorem keywordNetworkNodes_mem (articles : List Article) (kw : String) :
    kw ∈ keywordNetworkNodes articles ↔ 2 ≤ keywordFrequency articles kw := by
  unfold keywordNetworkNodes
  rw [List.mem_filter]
  constructor
  · intro h
    simpa using h.2
  · intro h
    refine ⟨?_, by simpa using h⟩
    rw [List.mem_dedup, List.mem_flatten]
    have hpos : 0 < (articles.filter (fun a => kw ∈ articleKeywords a)).length := by
      unfold keywordFrequency at h
      omega
    obtain ⟨a, ha⟩ := List.exists_mem_of_length_pos hpos
    rw [List.mem_filter] at ha
    exact ⟨articleKeywords a, List.mem_map.mpr ⟨a, ha.1, rfl⟩, by simpa using ha.2⟩

/-! ## Helper lemmas about the chunker -/

theorem composeArticleText_length (a : Article) :
    ("Title: " ++ a.title ++ "\n\nAbstract: " ++ a.abstract).length
      ≤ (composeArticleText a).length := by
  unfold composeArticleText
  generalize ("Title: " ++ a.title ++ "\n\nAbstract: " ++ a.abstract) = base
  have hgen : ∀ (l : List (String × String)) (acc : String),
      acc.length ≤ (l.foldl
        (fun acc lv => if lv.2 ≠ "" then acc ++ "\n\n" ++ lv.1 ++ ": " ++ lv.2 else acc)
        acc).length := by
    intro l
    induction l with
    | nil => intro acc; exact le_refl _
    | cons x tl ih =>
      intro acc
      refine le_trans ?_ (ih _)
      dsimp only
      split_ifs
      · simp only [String.length_append]
        omega
      · exact le_refl _
  exact hgen _ base

theorem composeArticleText_ne_empty (a : Article) : composeArticleText a ≠ "" := by
  intro h
  have hlen := composeArticleText_length a
  rw [h] at hlen
  simp only [String.length_append] at hlen
  have h7 : (0 : Nat) < "Title: ".length := by decide
  have h0 : ("" : String).length = 0 := rfl
  omega

theorem chunkArticleContent_length (split : String → List String) (docId : String)
    (a : Article) :
    (chunkArticleContent split docId a).length = (split (composeArticleText a)).length := by
  unfold chunkArticleContent
  simp

theorem chunkArticleContent_chunkIds (split : String → List String) (docId : String)
    (a : Article) :
    (chunkArticleContent split docId a).map (fun c => c.metadata.chunk_id)
      = List.range (split (composeArticleText a)).length := by
  unfold chunkArticleContent
  simp only [List.map_map]
  rw [show ((fun c : Chunk => c.metadata.chunk_id) ∘ (fun ic : Nat × String =>
      ({ page_content := ic.2,
         metadata :=
           { title := a.title, authors := String.intercalate ", " a.authors, year := a.year,
             journal := a.journal, risk_type := a.risk_type,
             level_of_analysis := a.level_of_analysis, source := "crossref",
             document_id := docId, chunk_id := ic.1,
             total_chunks := (split (composeArticleText a)).length } } : Chunk)))
      = (Prod.fst : Nat × String → Nat) from rfl]
  exact List.enum_map_fst _

theorem chunkArticleContent_meta (split : String → List String) (docId : String)
    (a : Article) :
    ∀ c ∈ chunkArticleContent split docId a,
      c.metadata.total_chunks = (chunkArticleContent split docId a).length ∧
      c.metadata.document_id = docId := by
  intro c hc
  rw [chunkArticleContent_length]
  unfold chunkArticleContent at hc
  obtain ⟨p, hp, hcp⟩ := List.mem_map.mp hc
  subst hcp
  exact ⟨rfl, rfl⟩

/-! ## Helper lemmas about search filters, recency, and the summary -/

theorem buildWhereClause_eq (filters : List (String × Option String)) :
    buildWhereClause filters
      = filters.filterMap (fun kv => kv.2.map (fun v => (kv.1, v))) := by
  unfold buildWhereClause
  have hgen : ∀ (l : List (String × Option String)) (acc : List (String × String)),
      l.foldl (fun acc kv => match kv.2 with | some v => acc ++ [(kv.1, v)] | none => acc) acc
        = acc ++ l.filterMap (fun kv => kv.2.map (fun v => (kv.1, v))) := by
    intro l
    induction l with
    | nil => intro acc; simp
    | cons kv tl ih =>
      intro acc
      cases h2 : kv.2 with
      | none => simp [List.foldl_cons, h2, ih]
      | some v => simp [List.foldl_cons, h2, ih]
  simpa using hgen filters []

theorem mem_buildWhereClause (filters : List (String × Option String)) (key v : String) :
    (key, v) ∈ buildWhereClause filters ↔ (key, some v) ∈ filters := by
  rw [buildWhereClause_eq, List.mem_filterMap]
  constructor
  · rintro ⟨⟨k2, v2⟩, hmem, hf⟩
    cases v2 with
    | none => simp at hf
    | some w => simp_all
  · intro h
    exact ⟨(key, some v), h, rfl⟩

theorem isArticleRecent_some (cy : Int) (md : Nat) (v : Int) :
    isArticleRecent cy md (some v) = true
      ↔ (v ≠ 0 ∧ cy - ((md / 365 : Nat) : Int) ≤ v) := by
  unfold isArticleRecent
  dsimp only
  split_ifs with h0
  · simp [h0]
  · simp [h0]

theorem dedupByTitleAux_mem_titles :
    ∀ (l acc : List RetrievedDoc) (t : String),
      t ∈ (dedupByTitleAux acc l).map (fun d => d.metadata.title)
        ↔ t ∈ acc.map (fun d => d.metadata.title) ∨ t ∈ l.map (fun d => d.metadata.title) := by
  intro l
  induction l with
  | nil => intro acc t; simp [dedupByTitleAux]
  | cons d rest ih =>
    intro acc t
    rw [dedupByTitleAux]
    by_cases h : acc.any (fun x => x.metadata.title == d.metadata.title)
    · rw [if_pos h]
      rw [ih]
      simp only [List.any_eq_true, beq_iff_eq] at h
      obtain ⟨x, hx, hxd⟩ := h
      simp only [List.map_cons, List.mem_cons]
      constructor
      · rintro (ha | hr)
        · exact Or.inl ha
        · exact Or.inr (Or.inr hr)
      · rintro (ha | heq | hr)
        · exact Or.inl ha
        · exact Or.inl (by
            rw [heq, ← hxd]
            exact List.mem_map.mpr ⟨x, hx, rfl⟩)
        · exact Or.inr hr
    · rw [if_neg h]
      rw [ih]
      simp only [List.map_append, List.map_cons, List.map_nil, List.mem_append,
        List.mem_cons, List.mem_singleton, List.not_mem_nil, or_false, List.mem_cons]
      tauto

theorem dedupByTitleAux_nodup_titles :
    ∀ (l acc : List RetrievedDoc),
      (acc.map (fun d => d.metadata.title)).Nodup →
      ((dedupByTitleAux acc l).map (fun d => d.metadata.title)).Nodup := by
  intro l
  induction l with
  | nil => intro acc h; exact h
  | cons d rest ih =>
    intro acc h
    rw [dedupByTitleAux]
    by_cases hm : acc.any (fun x => x.metadata.title == d.metadata.title)
    · rw [if_pos hm]
      exact ih acc h
    · rw [if_neg hm]
      apply ih
      simp only [List.map_append, List.map_cons, List.map_nil]
      rw [List.nodup_append]
      refine ⟨h, List.nodup_singleton _, ?_⟩
      intro t ht
      simp only [List.mem_singleton]
      intro hts
      apply hm
      simp only [List.any_eq_true, beq_iff_eq]
      obtain ⟨x, hx, hxt⟩ := List.mem_map.mp ht
      exact ⟨x, hx, by rw [hxt, hts]⟩

theorem multiArticleSummary_empty (retrieve : String → List RetrievedDoc)
    (llm : String → String) (titles : List String)
    (h : ∀ t ∈ titles, retrieve t = []) :
    (multiArticleSummary retrieve llm titles).articles_found = 0
      ∧ (multiArticleSummary retrieve llm titles).llmInvoked = false := by
  unfold multiArticleSummary
  have hempty : (titles.flatMap fun title => retrieve title) = [] := by
    rw [List.flatMap_eq_nil_iff]
    exact h
  rw [hempty]
  exact ⟨rfl, rfl⟩

theorem multiArticleSummary_dedup (retrieve : String → List RetrievedDoc)
    (llm : String → String) (titles : List String)
    (h : (titles.flatMap fun title => retrieve title) ≠ []) :
    (((multiArticleSummary retrieve llm titles).articles_analyzed).map
        (fun m => m.title)).Nodup
    ∧ ∀ t, t ∈ ((multiArticleSummary retrieve llm titles).articles_analyzed).map
        (fun m => m.title)
        ↔ t ∈ (titles.flatMap fun title => retrieve title).map
            (fun d => d.metadata.title) := by
  unfold multiArticleSummary
  rw [if_neg (by simpa using h)]
  dsimp only
  have hmap : ∀ (docs : List RetrievedDoc),
      (docs.map (fun d => d.metadata)).map (fun m => m.title)
        = docs.map (fun d => d.metadata.title) := by
    intro docs
    rw [List.map_map]
    rfl
  constructor
  · rw [hmap]
    exact dedupByTitleAux_nodup_titles _ [] (by simp)
  · intro t
    rw [hmap]
    unfold dedupByTitle
    rw [dedupByTitleAux_mem_titles]
    simp

theorem chunkArticleContent_ne_nil (split : String → List String) (docId : String)
    (a : Article) (hsplit : ∀ s, s ≠ "" → split s ≠ []) :
    chunkArticleContent split docId a ≠ [] := by
  have hne := hsplit _ (composeArticleText_ne_empty a)
  intro h
  have hl := chunkArticleContent_length split docId a
  rw [h] at hl
  simp only [List.length_nil] at hl
  exact hne (List.length_eq_zero.mp hl.symm)

/-! ## Claim theorems -/

/-- C1 (amended): for every unordered pair of records, the similarity score
equals the weighted sum of the matching components divided by the sum of the
weights of the components whose presence condition holds, and 0 when that
denominator is 0. For the two example records the score is 17/24 ≈ 0.7083
(the quoted 17/30 is the numerator alone, not the quotient), and with
threshold 0.5 the similarity network built from exactly these two records
contains exactly one edge, between them, with that score as its weight. -/
theorem claim_C1 :
    (∀ a b : Article, calcArticleSimilarity a b =
      if 0 < simDenominator a b then simNumerator a b / simDenominator a b else 0)
    ∧ calcArticleSimilarity exampleArticleA exampleArticleB = 17/24
    ∧ createArticleSimilarityNetworkEdges [exampleArticleA, exampleArticleB] (1/2)
        = [⟨"article_0", "article_1", 17/24⟩] := by
  refine ⟨calc_eq_spec, exampleScore, ?_⟩
  have h : [exampleArticleA, exampleArticleB].getD 0 default = exampleArticleA := rfl
  have h2 : [exampleArticleA, exampleArticleB].getD 1 default = exampleArticleB := rfl
  norm_num [createArticleSimilarityNetworkEdges, List.length_cons, List.length_nil,
    List.range_succ, List.range_zero, List.flatMap_cons, List.flatMap_nil, List.filter_cons,
    List.filter_nil, List.filterMap_cons, List.filterMap_nil, h, h2, exampleScore,
    List.getElem?_cons_zero, List.getElem?_cons_succ, Option.getD_some,
    articleNodeId, natToDecimalString, decimalDigitsCore]
  exact ⟨rfl, rfl⟩

/-- C1 counterexample: on the spec's two example records the score is 17/24,
which differs from the claimed value 17/30. -/
theorem claim_C1_counterexample :
    calcArticleSimilarity exampleArticleA exampleArticleB = 17/24
    ∧ ((17 : ℚ)/24 ≠ 17/30) :=
  ⟨exampleScore, by norm_num⟩

/-- C2 (amended): the chunking operation never fails; for every article
record — in particular one whose `abstract` and `full_text` are both empty,
or whose composed text is below 100 characters — it returns a non-empty
chunk sequence whenever the splitter collaborator returns chunks for
non-empty text. No `InsufficientContentError` exists in the code. -/
theorem claim_C2 (split : String → List String) (docId : String) (a : Article)
    (hsplit : ∀ s, s ≠ "" → split s ≠ []) :
    chunkArticleContent split docId a ≠ [] :=
  chunkArticleContent_ne_nil split docId a hsplit

/-- C2 witness: the amended theorem applied to the all-empty record and a
concrete splitter. -/
theorem claim_C2_witness : chunkArticleContent splitWhole "doc-1" emptyArticle ≠ [] :=
  claim_C2 splitWhole "doc-1" emptyArticle (fun s hs => by simp [splitWhole, hs])

/-- C2 counterexample: a record with empty `abstract` (and no text at all),
whose composed text is 19 characters long — far below the claimed
100-character minimum — still yields a returned chunk sequence instead of a
raised `InsufficientContentError`. -/
theorem claim_C2_counterexample :
    emptyArticle.abstract = "" ∧ (composeArticleText emptyArticle).length < 100
    ∧ chunkArticleContent splitWhole "doc-1" emptyArticle ≠ [] := by decide

/-- C3 (confirmed): for every record with a non-empty abstract (and any
splitter collaborator that returns at least one piece on non-empty text),
the chunk sequence is non-empty, the `chunk_id` positions form the
contiguous range `0..total-1` in order, and every chunk carries
`total_chunks` equal to the sequence length and the shared generated
document id. -/
theorem claim_C3 (split : String → List String) (docId : String) (a : Article)
    (hsplit : ∀ s, s ≠ "" → split s ≠ []) (habs : a.abstract ≠ "") :
    chunkArticleContent split docId a ≠ []
    ∧ (chunkArticleContent split docId a).map (fun c => c.metadata.chunk_id)
        = List.range (chunkArticleContent split docId a).length
    ∧ ∀ c ∈ chunkArticleContent split docId a,
        c.metadata.total_chunks = (chunkArticleContent split docId a).length
        ∧ c.metadata.document_id = docId := by
  refine ⟨chunkArticleContent_ne_nil split docId a hsplit, ?_,
    chunkArticleContent_meta split docId a⟩
  rw [chunkArticleContent_chunkIds, chunkArticleContent_length]

/-- C3 witness: the theorem applied to a record with a non-empty abstract
and a concrete splitter. -/
theorem claim_C3_witness :
    chunkArticleContent splitWhole "doc-1" abstractArticle ≠ []
    ∧ (chunkArticleContent splitWhole "doc-1" abstractArticle).map
        (fun c => c.metadata.chunk_id)
      = List.range (chunkArticleContent splitWhole "doc-1" abstractArticle).length := by
  have h := claim_C3 splitWhole "doc-1" abstractArticle
    (fun s hs => by simp [splitWhole, hs]) (by decide)
  exact ⟨h.1, h.2.1⟩

/-- C4 (amended): the keyword graph and the similarity graph never contain a
self-loop and their edge weights are non-negative; the author graph contains
no self-loop provided no record's cleaned author list contains a duplicate
name (author/keyword weights are natural-number counts). When two author
strings of one record normalise to the same cleaned name, the author graph
does acquire a self-loop (see the counterexample). -/
theorem claim_C4 (articles : List Article) (t : ℚ) :
    (∀ u v w, ((u, v), w) ∈ keywordNetworkEdges articles → u ≠ v ∧ 0 ≤ w)
    ∧ (∀ e ∈ createArticleSimilarityNetworkEdges articles t,
        e.src ≠ e.dst ∧ 0 ≤ e.weight)
    ∧ ((∀ a ∈ articles, (cleanAuthorsOf a).Nodup) →
        ∀ u v w, ((u, v), w) ∈ createAuthorNetworkEdges articles → u ≠ v ∧ 0 ≤ w) := by
  refine ⟨?_, ?_, ?_⟩
  · intro u v w h
    exact ⟨keywordNetworkEdges_noSelf articles ((u, v), w) h, Nat.zero_le w⟩
  · intro e he
    obtain ⟨i, j, hij, hj, he2, ht⟩ := simEdges_mem_shape he
    constructor
    · rw [he2]
      dsimp only
      intro hch
      exact absurd (articleNodeId_inj hch) (by omega)
    · rw [he2]
      exact calcArticleSimilarity_nonneg _ _
  · intro hnod u v w h
    exact ⟨createAuthorNetworkEdges_noSelf articles hnod ((u, v), w) h, Nat.zero_le w⟩

/-- C4 witness: the author-graph statement applied to a record with two
distinct authors rules out the self-loop key. -/
theorem claim_C4_witness :
    (("X", "X"), 1) ∉ createAuthorNetworkEdges [twoAuthorArticle] := by
  intro h
  have hpart := (claim_C4 [twoAuthorArticle] 0).2.2 (by decide) "X" "X" 1 h
  exact hpart.1 rfl

/-- C4 counterexample: one record whose two author strings both clean to
`X` produces an author graph whose only edge is the self-loop on `X`. -/
theorem claim_C4_counterexample :
    createAuthorNetworkEdges [selfLoopArticle] = [(("X", "X"), 1)]
    ∧ cleanAuthorName "Dr. X" = cleanAuthorName "X" := by decide

/-- C5 (confirmed): a keyword is a node of the final keyword network exactly
when its frequency (number of records containing it) is at least 2; in
particular a keyword of exactly one record is absent and a keyword of two or
more records is present. -/
theorem claim_C5 (articles : List Article) (kw : String) :
    kw ∈ keywordNetworkNodes articles ↔ 2 ≤ keywordFrequency articles kw :=
  keywordNetworkNodes_mem articles kw

/-- C5 witness: `beta` occurs in both example records and is kept; `alpha`
occurs in only one and is pruned. -/
theorem claim_C5_witness :
    "beta" ∈ keywordNetworkNodes [kwArticle1, kwArticle2]
    ∧ "alpha" ∉ keywordNetworkNodes [kwArticle1, kwArticle2] := by
  constructor
  · exact (claim_C5 [kwArticle1, kwArticle2] "beta").mpr (by decide)
  · intro h
    have hf := (claim_C5 [kwArticle1, kwArticle2] "alpha").mp h
    revert hf
    decide

/-- C6 (amended): the recency predicate accepts a record iff its year is
present, non-zero (Python truthiness of an integer), and at least
`current_year - max_days // 365`; and with `max_days = 30`,
`current_year = 2024` exactly the records with year ≥ 2024 are recent. -/
theorem claim_C6 (cy : Int) (md : Nat) (y : Option Int) :
    (isArticleRecent cy md y = true
      ↔ ∃ v, y = some v ∧ v ≠ 0 ∧ cy - ((md / 365 : Nat) : Int) ≤ v)
    ∧ (isArticleRecent 2024 30 y = true ↔ ∃ v, y = some v ∧ 2024 ≤ v) := by
  cases y with
  | none => simp [isArticleRecent]
  | some v =>
    constructor
    · rw [isArticleRecent_some]
      constructor
      · intro h
        exact ⟨v, rfl, h.1, h.2⟩
      · rintro ⟨w, hw, h2, h3⟩
        injection hw with hw
        subst hw
        exact ⟨h2, h3⟩
    · rw [isArticleRecent_some]
      have h365 : ((30 / 365 : Nat) : Int) = 0 := by decide
      rw [h365]
      constructor
      · intro h
        exact ⟨v, rfl, by omega⟩
      · rintro ⟨w, hw, h2⟩
        injection hw with hw
        subst hw
        omega

/-- C6 witness: a 2024 record is recent under the 30-day window in 2024. -/
theorem claim_C6_witness : isArticleRecent 2024 30 (some 2024) = true :=
  ((claim_C6 2024 30 (some 2024)).2).mpr ⟨2024, rfl, by norm_num⟩

/-- C6 counterexample: with a large configured age window the minimum
acceptable year is non-positive, so a present year 0 satisfies the claimed
acceptance condition, yet the code rejects it (Python `not 0` is true). -/
theorem claim_C6_counterexample :
    isArticleRecent 2024 1095000 (some 0) = false
    ∧ (some (0 : Int)).isSome = true
    ∧ (2024 : Int) - ((1095000 / 365 : Nat) : Int) ≤ 0 :=
  ⟨rfl, rfl, by decide⟩

/-- C7 (confirmed): the collection-statistics operation is total — a
successful adapter count yields the document count and collection name, and
an adapter error yields a payload with the error message and
`total_documents = 0` instead of a propagated exception. -/
theorem claim_C7 (name : String) (n : Nat) (e : String) :
    getCollectionStats name (Except.ok n)
        = { total_documents := n, collection_name := some name, error := none }
    ∧ getCollectionStats name (Except.error e)
        = { total_documents := 0, collection_name := none, error := some e } :=
  ⟨rfl, rfl⟩

/-- C8 (confirmed): when every per-title retrieval is empty the summary
operation returns `articles_found = 0` without invoking the language-model
collaborator; when chunks are retrieved, the analysed-articles list contains
each distinct retrieved title exactly once. -/
theorem claim_C8 (retrieve : String → List RetrievedDoc) (llm : String → String)
    (titles : List String) :
    ((∀ t ∈ titles, retrieve t = []) →
      (multiArticleSummary retrieve llm titles).articles_found = 0
      ∧ (multiArticleSummary retrieve llm titles).llmInvoked = false)
    ∧ ((titles.flatMap fun title => retrieve title) ≠ [] →
      (((multiArticleSummary retrieve llm titles).articles_analyzed).map
          (fun m => m.title)).Nodup
      ∧ ∀ t, t ∈ ((multiArticleSummary retrieve llm titles).articles_analyzed).map
            (fun m => m.title)
          ↔ t ∈ (titles.flatMap fun title => retrieve title).map
              (fun d => d.metadata.title)) :=
  ⟨multiArticleSummary_empty retrieve llm titles,
    multiArticleSummary_dedup retrieve llm titles⟩

/-- C8 witness: an all-empty retrieval yields the zero-result payload with
no language-model call, and a retrieval with two same-titled chunks yields a
duplicate-free analysed list. -/
theorem claim_C8_witness :
    (multiArticleSummary (fun _ => ([] : List RetrievedDoc)) (fun _ => "s") ["T"]).articles_found = 0
    ∧ (multiArticleSummary (fun _ => ([] : List RetrievedDoc)) (fun _ => "s") ["T"]).llmInvoked = false
    ∧ (((multiArticleSummary retrieveSameTitle (fun _ => "s") ["T"]).articles_analyzed).map
        (fun m => m.title)).Nodup := by
  have h1 := (claim_C8 (fun _ => ([] : List RetrievedDoc)) (fun _ => "s") ["T"]).1
    (fun t _ => rfl)
  have h2 := (claim_C8 retrieveSameTitle (fun _ => "s") ["T"]).2 (by decide)
  exact ⟨h1.1, h1.2, h2.1⟩

/-- C10 (confirmed): the assembled search arguments keep `k`, the filter
clause contains exactly the supplied entries whose value is not `None`, and
when no filters are supplied or every supplied value is `None` the filter
clause is absent (the search runs unfiltered). -/
theorem claim_C10 (k : Nat) (filters : List (String × Option String)) :
    (searchSimilarKwargs k filters).k = k
    ∧ (∀ key v, (key, v) ∈ ((searchSimilarKwargs k filters).filter.getD [])
        ↔ (key, some v) ∈ filters)
    ∧ ((∀ p ∈ filters, p.2 = none) → (searchSimilarKwargs k filters).filter = none) := by
  unfold searchSimilarKwargs
  by_cases h1 : filters.isEmpty
  · rw [if_pos h1]
    refine ⟨rfl, ?_, fun _ => rfl⟩
    intro key v
    simp only [Option.getD_none, List.not_mem_nil, false_iff]
    intro hmem
    rw [List.isEmpty_iff] at h1
    subst h1
    exact absurd hmem (List.not_mem_nil _)
  · rw [if_neg h1]
    dsimp only
    by_cases h2 : (buildWhereClause filters).isEmpty
    · rw [if_pos h2]
      refine ⟨rfl, ?_, fun _ => rfl⟩
      intro key v
      simp only [Option.getD_none, List.not_mem_nil, false_iff]
      intro hmem
      have hmem2 := (mem_buildWhereClause filters key v).mpr hmem
      rw [List.isEmpty_iff] at h2
      rw [h2] at hmem2
      exact absurd hmem2 (List.not_mem_nil _)
    · rw [if_neg h2]
      refine ⟨rfl, ?_, ?_⟩
      · intro key v
        simpa using mem_buildWhereClause filters key v
      · intro hall
        exfalso
        apply h2
        rw [buildWhereClause_eq, List.isEmpty_iff, List.filterMap_eq_nil_iff]
        intro kv hkv
        rw [hall kv hkv]
        rfl

/-- C10 witness: an all-`None` filter map yields no filter clause, and a
present value survives into the clause with `k` preserved. -/
theorem claim_C10_witness :
    (searchSimilarKwargs 3 [("year", none)]).filter = none
    ∧ (searchSimilarKwargs 5 [("title", some "T")]).k = 5
    ∧ ("title", "T") ∈ ((searchSimilarKwargs 5 [("title", some "T")]).filter.getD []) := by
  refine ⟨(claim_C10 3 [("year", none)]).2.2 ?_, (claim_C10 5 [("title", some "T")]).1,
    ((claim_C10 5 [("title", some "T")]).2.1 "title" "T").mpr (by simp)⟩
  intro p hp
  simp only [List.mem_singleton] at hp
  rw [hp]

/-- C9 (confirmed): the similarity score is symmetric and bounded between 0
and 1. -/
theorem claim_C9 (a b : Article) :
    calcArticleSimilarity a b = calcArticleSimilarity b a
    ∧ 0 ≤ calcArticleSimilarity a b ∧ calcArticleSimilarity a b ≤ 1 := by
  refine ⟨?_, calcArticleSimilarity_nonneg a b, calcArticleSimilarity_le_one a b⟩
  rw [calc_eq_spec, calc_eq_spec, simNumerator_comm, simDenominator_comm]

end SmartLit
